import Mathlib

/-!
Verification of the CORC BLE peripheral core (`main.py`): the frame codec,
the connection registry, the IRQ event dispatcher and the command pipeline.
Every definition below is a shallow embedding of the corresponding Python
function; byte strings are `List Nat` (each element a byte value), Python
exceptions are modelled with `Except PyError`.
-/

/-- Protocol magic constant `CORC_PROTOCOL_MAGIC = 0xC07C`. -/
def CORC_PROTOCOL_MAGIC : Nat := 0xC07C

/-- Result code `RES_OK = 0x00`. -/
def RES_OK : Nat := 0x00

/-- Result code `RES_REQUEST_NOT_SUPPORTED = 0x06`. -/
def RES_REQUEST_NOT_SUPPORTED : Nat := 0x06

/-- Result code `RES_INVALID_ATTRIBUTE_LENGTH = 0x0D`. -/
def RES_INVALID_ATTRIBUTE_LENGTH : Nat := 0x0D

/-- Result code `RES_UNSUPPORTED = 0x11`. -/
def RES_UNSUPPORTED : Nat := 0x11

/-- Opcode `OPCODE_PING = 0x01`. -/
def OPCODE_PING : Nat := 0x01

/-- Opcode `OPCODE_VERSION = 0x02`. -/
def OPCODE_VERSION : Nat := 0x02

/-- Opcode `OPCODE_GET_DATA_MAX_LEN = 0x03`. -/
def OPCODE_GET_DATA_MAX_LEN : Nat := 0x03

/-- Python exceptions that the embedded code can raise. -/
inductive PyError where
  | valueError
  | osError
deriving DecidableEq, Repr

/-- Per-connection state, embedding class `BleConnection` (`main.py`).
Fields mirror `__init__`: handle, address type, address bytes, MTU, the
connection parameters (unset until `_IRQ_CONNECTION_UPDATE`) and the
security tuple (unset until `_IRQ_ENCRYPTION_UPDATE`). -/
structure BleConnection where
  conn_handle : Nat
  addr_type : Nat
  addr : List Nat
  mtu : Nat
  conn_interval : Option Nat
  conn_latency : Option Nat
  supervision_timeout : Option Nat
  conn_status : Option Nat
  encrypted : Bool
  authenticated : Bool
  bonded : Bool
  key_size : Option Nat
deriving DecidableEq, Repr

/-- `BleConnection.__init__(conn_handle, addr_type, addr, initial_mtu)`. -/
def BleConnection.mk_initial (conn_handle addr_type : Nat) (addr : List Nat)
    (initial_mtu : Nat) : BleConnection :=
  { conn_handle := conn_handle, addr_type := addr_type, addr := addr,
    mtu := initial_mtu,
    conn_interval := none, conn_latency := none,
    supervision_timeout := none, conn_status := none,
    encrypted := false, authenticated := false, bonded := false,
    key_size := none }

/-- `BleConnection.update_mtu`. -/
def BleConnection.update_mtu (c : BleConnection) (mtu : Nat) : BleConnection :=
  { c with mtu := mtu }

/-- `BleConnection.update_connection_params`. -/
def BleConnection.update_connection_params (c : BleConnection)
    (conn_interval conn_latency supervision_timeout status : Nat) : BleConnection :=
  { c with conn_interval := some conn_interval, conn_latency := some conn_latency,
           supervision_timeout := some supervision_timeout, conn_status := some status }

/-- `BleConnection.update_security`. -/
def BleConnection.update_security (c : BleConnection)
    (encrypted authenticated bonded : Bool) (key_size : Nat) : BleConnection :=
  { c with encrypted := encrypted, authenticated := authenticated, bonded := bonded,
           key_size := some key_size }

/-- The connection registry `self._connections`: a handle-keyed map, embedded
as an insertion-ordered association list (Python dict semantics; all
operations keep keys unique). -/
abbrev Registry := List (Nat × BleConnection)

/-- `self._connections.get(conn_handle, None)` (`_get_connection`). -/
def get_connection (r : Registry) (conn_handle : Nat) : Option BleConnection :=
  (r.find? (fun p => p.1 == conn_handle)).map Prod.snd

/-- `_add_connection`: `pop` any record already at this handle (eviction,
logged), then insert a fresh `BleConnection` with `initial_mtu=23`. In the
association list, popping the key and inserting the fresh pair at the end. -/
def add_connection (r : Registry) (conn_handle addr_type : Nat) (addr : List Nat) :
    Registry :=
  (r.filter (fun p => p.1 != conn_handle)) ++
    [(conn_handle, BleConnection.mk_initial conn_handle addr_type addr 23)]

/-- `_remove_connection`: `self._connections.pop(conn_handle, None)`. -/
def remove_connection (r : Registry) (conn_handle : Nat) : Registry :=
  r.filter (fun p => p.1 != conn_handle)

/-- The `_IRQ_MTU_EXCHANGED` registry effect: look up the record for this
handle and, when present, mutate its `mtu` in place (no-op otherwise). -/
def registry_update_mtu (r : Registry) (conn_handle mtu : Nat) : Registry :=
  r.map (fun p => if p.1 = conn_handle then (p.1, p.2.update_mtu mtu) else p)

/-- The `_IRQ_CONNECTION_UPDATE` registry effect. -/
def registry_update_params (r : Registry)
    (conn_handle conn_interval conn_latency supervision_timeout status : Nat) :
    Registry :=
  r.map (fun p =>
    if p.1 = conn_handle then
      (p.1, p.2.update_connection_params conn_interval conn_latency
              supervision_timeout status)
    else p)

/-- The `_IRQ_ENCRYPTION_UPDATE` registry effect. -/
def registry_update_security (r : Registry) (conn_handle : Nat)
    (encrypted authenticated bonded : Bool) (key_size : Nat) : Registry :=
  r.map (fun p =>
    if p.1 = conn_handle then
      (p.1, p.2.update_security encrypted authenticated bonded key_size)
    else p)

/-- `CORC_PROTOCOL_MAGIC.to_bytes(2, "little")`. -/
def magic_bytes : List Nat :=
  [CORC_PROTOCOL_MAGIC % 256, CORC_PROTOCOL_MAGIC / 256]

/-- The frame built by `send_response`: Magic(2), RequestId(1), Opcode(1),
Result(1), Len(1), Payload(N). -/
def encode_response (request_id opcode result : Nat) (payload : List Nat) :
    List Nat :=
  magic_bytes ++ [request_id, opcode, result, payload.length] ++ payload

/-- The arguments a pipeline iteration hands to `send_response`. -/
structure Response where
  request_id : Nat
  opcode : Nat
  result : Nat
  payload : List Nat
deriving DecidableEq, Repr

/-- One iteration of the inner loop of `_process_commands` for a dequeued
`(conn_handle, value)` item: header checks, decode, opcode dispatch.
Returns `Except.ok none` when the frame is dropped without a response,
`Except.ok (some r)` when `send_response` is called with `r`, and
`Except.error` when the Python code would raise — the only raising
expression reachable from byte input is `bytes([max_len])` in the
`GetDataMaxLen` handler, a `ValueError` unless `0 ≤ max_len ≤ 255`. -/
def process_item (conns : Registry) (conn_handle : Nat) (value : List Nat) :
    Except PyError (Option Response) :=
  if value.length < 5 then
    Except.ok none
  else if value.getD 0 0 + 256 * value.getD 1 0 != CORC_PROTOCOL_MAGIC then
    Except.ok none
  else
    let request_id := value.getD 2 0
    let opcode := value.getD 3 0
    let payload_len := value.getD 4 0
    if value.length < 5 + payload_len then
      Except.ok (some ⟨request_id, opcode, RES_INVALID_ATTRIBUTE_LENGTH, []⟩)
    else if opcode = OPCODE_PING then
      Except.ok (some ⟨request_id, opcode, RES_OK, []⟩)
    else if opcode = OPCODE_VERSION then
      Except.ok (some ⟨request_id, opcode, RES_OK, [0x01, 0x00, 0x00]⟩)
    else if opcode = OPCODE_GET_DATA_MAX_LEN then
      let max_len : Int :=
        match get_connection conns conn_handle with
        | some conn => (conn.mtu : Int) - 3
        | none => 20
      if 0 ≤ max_len ∧ max_len ≤ 255 then
        Except.ok (some ⟨request_id, opcode, RES_OK, [max_len.toNat]⟩)
      else
        Except.error PyError.valueError
    else
      Except.ok (some ⟨request_id, opcode, RES_UNSUPPORTED, []⟩)

/-- The notification bytes produced by one pipeline iteration: the
`Response` passed through `send_response`'s framing. -/
def process_item_notification (conns : Registry) (conn_handle : Nat)
    (value : List Nat) : Except PyError (Option (List Nat)) :=
  match process_item conns conn_handle value with
  | Except.error e => Except.error e
  | Except.ok none => Except.ok none
  | Except.ok (some r) =>
      Except.ok (some (encode_response r.request_id r.opcode r.result r.payload))

/-- Outcome of `send_notification`, distinguishing the three source paths. -/
inductive NotifyResult where
  | skippedUnknownHandle
  | notified
  | radioErrorLogged
deriving DecidableEq, Repr

/-- `self._ble.gatts_notify(...)`: the radio collaborator, which may raise
`OSError`; whether it does is the `radio_raises` input. -/
def gatts_notify_radio (radio_raises : Bool) : Except PyError Unit :=
  if radio_raises then Except.error PyError.osError else Except.ok ()

/-- `send_notification`: when the handle is in `self._connections`, call the
radio and catch `OSError` (logging it); otherwise only log a warning. -/
def send_notification (conns : Registry) (conn_handle : Nat)
    (radio_raises : Bool) : Except PyError NotifyResult :=
  if (conns.find? (fun p => p.1 == conn_handle)).isSome then
    match gatts_notify_radio radio_raises with
    | Except.ok _ => Except.ok NotifyResult.notified
    | Except.error _ => Except.ok NotifyResult.radioErrorLogged
  else
    Except.ok NotifyResult.skippedUnknownHandle

/-- The BLE IRQ events handled by `_irq`, with the data each carries.
`gattsWrite` also carries the bytes `gatts_read` returns for the written
attribute. -/
inductive BleEvent where
  | centralConnect (conn_handle addr_type : Nat) (addr : List Nat)
  | centralDisconnect (conn_handle addr_type : Nat) (addr : List Nat)
  | gattsWrite (conn_handle value_handle : Nat) (value : List Nat)
  | mtuExchanged (conn_handle mtu : Nat)
  | connectionUpdate (conn_handle conn_interval conn_latency
      supervision_timeout status : Nat)
  | encryptionUpdate (conn_handle : Nat) (encrypted authenticated bonded : Bool)
      (key_size : Nat)
  | unknown (event : Nat)
deriving DecidableEq, Repr

/-- The mutable state of `CorcBlePeripheral` the dispatcher touches:
the registry, the command queue, the advertise-restart flag and the RX
attribute handle. -/
structure PeripheralState where
  connections : Registry
  cmd_queue : List (Nat × List Nat)
  should_advertise : Bool
  rx_handle : Nat
deriving DecidableEq, Repr

/-- State after `__init__`: empty registry, empty queue, flag clear. -/
def init_state (rx_handle : Nat) : PeripheralState :=
  { connections := [], cmd_queue := [], should_advertise := false,
    rx_handle := rx_handle }

/-- The `_irq` callback, one event. -/
def irq (st : PeripheralState) (ev : BleEvent) : PeripheralState :=
  match ev with
  | BleEvent.centralConnect conn_handle addr_type addr =>
      { st with connections := add_connection st.connections conn_handle addr_type addr }
  | BleEvent.centralDisconnect conn_handle _ _ =>
      { st with connections := remove_connection st.connections conn_handle,
                cmd_queue := st.cmd_queue.filter (fun c => c.1 != conn_handle),
                should_advertise := true }
  | BleEvent.gattsWrite conn_handle value_handle value =>
      if value_handle = st.rx_handle then
        { st with cmd_queue := st.cmd_queue ++ [(conn_handle, value)] }
      else st
  | BleEvent.mtuExchanged conn_handle mtu =>
      { st with connections := registry_update_mtu st.connections conn_handle mtu }
  | BleEvent.connectionUpdate conn_handle conn_interval conn_latency
      supervision_timeout status =>
      { st with connections := registry_update_params st.connections conn_handle
                  conn_interval conn_latency supervision_timeout status }
  | BleEvent.encryptionUpdate conn_handle encrypted authenticated bonded key_size =>
      { st with connections := registry_update_security st.connections conn_handle
                  encrypted authenticated bonded key_size }
  | BleEvent.unknown _ => st

/-- Run a sequence of IRQ events from a state. -/
def run_events (st : PeripheralState) (evs : List BleEvent) : PeripheralState :=
  evs.foldl irq st

/-- The radio collaborator's contract on delivered MTU values: the stack
negotiates `min(peer, configured 247)`, never below the ATT minimum 23. -/
def event_mtu_ok : BleEvent → Bool
  | BleEvent.mtuExchanged _ mtu => decide (23 ≤ mtu) && decide (mtu ≤ 247)
  | _ => true

/-- Every registry record's MTU is in the radio-negotiable range. -/
def registry_mtu_ok (r : Registry) : Prop :=
  ∀ p ∈ r, 23 ≤ p.2.mtu ∧ p.2.mtu ≤ 247

/-- The handles currently present in the registry, in insertion order. -/
def registry_keys (r : Registry) : List Nat :=
  r.map Prod.fst

/-- Whether a pipeline iteration completed without raising. -/
def iteration_ok (out : Except PyError (Option Response)) : Bool :=
  match out with
  | Except.ok _ => true
  | Except.error _ => false

/-- Looking up a handle after an in-place MTU update (`update_mtu` via
`_get_connection`) yields the old record with the new MTU. -/
lemma get_connection_registry_update_mtu (r : Registry) (h mtu : Nat) :
    get_connection (registry_update_mtu r h mtu) h =
      (get_connection r h).map (fun c => c.update_mtu mtu) := by
  induction r with
  | nil => rfl
  | cons p t ih =>
      by_cases hp : p.1 = h
      · simp [get_connection, registry_update_mtu, List.find?_cons, hp]
      · simp only [get_connection, registry_update_mtu, List.map_cons, if_neg hp] at ih ⊢
        rw [List.find?_cons_of_neg, List.find?_cons_of_neg]
        · exact ih
        · simp [hp]
        · simp [hp]

/-- Filtering one handle out of the registry does not change a lookup for a
different handle. -/
lemma find_filter_other (r : Registry) (h h' : Nat) (hne : h' ≠ h) :
    (r.filter (fun p => p.1 != h)).find? (fun p => p.1 == h') =
      r.find? (fun p => p.1 == h') := by
  induction r with
  | nil => rfl
  | cons p t ih =>
      by_cases hp : p.1 = h'
      · rw [List.filter_cons_of_pos (by simp [hp]; omega),
            List.find?_cons_of_pos _ (by simp [hp]),
            List.find?_cons_of_pos _ (by simp [hp])]
      · by_cases hph : p.1 = h
        · rw [List.filter_cons_of_neg (by simp [hph]),
              List.find?_cons_of_neg _ (by simp [hp]), ih]
        · rw [List.filter_cons_of_pos (by simp [hph]),
              List.find?_cons_of_neg _ (by simp [hp]),
              List.find?_cons_of_neg _ (by simp [hp]), ih]

/-- A map that rewrites only record contents leaves the key list unchanged. -/
lemma registry_keys_map_fst_preserving
    (f : Nat × BleConnection → Nat × BleConnection)
    (hf : ∀ p, (f p).1 = p.1) (r : Registry) :
    registry_keys (r.map f) = registry_keys r := by
  simp only [registry_keys, List.map_map]
  exact List.map_congr_left (fun a _ => hf a)

/-- Each `_irq` event preserves key uniqueness of the registry. -/
lemma nodup_keys_irq (st : PeripheralState) (ev : BleEvent)
    (hst : (registry_keys st.connections).Nodup) :
    (registry_keys (irq st ev).connections).Nodup := by
  cases ev with
  | centralConnect conn_handle addr_type addr =>
      simp only [irq, add_connection, registry_keys, List.map_append]
      rw [List.nodup_append]
      refine ⟨((List.filter_sublist _).map Prod.fst).nodup hst, by simp, ?_⟩
      intro k hk
      simp only [List.mem_map, List.mem_filter] at hk
      obtain ⟨p, ⟨_, hkeep⟩, rfl⟩ := hk
      simp only [List.map_cons, List.map_nil, List.mem_singleton]
      simpa [bne_iff_ne] using hkeep
  | centralDisconnect conn_handle addr_type addr =>
      exact (((List.filter_sublist _).map Prod.fst).nodup hst)
  | gattsWrite conn_handle value_handle value =>
      simp only [irq]
      split <;> exact hst
  | mtuExchanged conn_handle mtu =>
      simp only [irq, registry_update_mtu]
      rw [registry_keys_map_fst_preserving
        (fun p => if p.1 = conn_handle then (p.1, p.2.update_mtu mtu) else p)
        (fun p => by by_cases hp : p.1 = conn_handle <;> simp [hp])]
      exact hst
  | connectionUpdate a b c d e =>
      simp only [irq, registry_update_params]
      rw [registry_keys_map_fst_preserving
        (fun p => if p.1 = a then (p.1, p.2.update_connection_params b c d e) else p)
        (fun p => by by_cases hp : p.1 = a <;> simp [hp])]
      exact hst
  | encryptionUpdate a b c d e =>
      simp only [irq, registry_update_security]
      rw [registry_keys_map_fst_preserving
        (fun p => if p.1 = a then (p.1, p.2.update_security b c d e) else p)
        (fun p => by by_cases hp : p.1 = a <;> simp [hp])]
      exact hst
  | unknown n => exact hst

/-- Key uniqueness of the registry is preserved along any event run. -/
lemma nodup_keys_run (evs : List BleEvent) (st : PeripheralState)
    (hst : (registry_keys st.connections).Nodup) :
    (registry_keys (run_events st evs).connections).Nodup := by
  induction evs generalizing st with
  | nil => exact hst
  | cons e t ih => exact ih (irq st e) (nodup_keys_irq st e hst)

/-- A successful registry lookup comes from some member of the registry. -/
lemma get_connection_mem {r : Registry} {h : Nat} {c : BleConnection}
    (hg : get_connection r h = some c) : ∃ p ∈ r, p.2 = c := by
  simp only [get_connection, Option.map_eq_some'] at hg
  obtain ⟨p, hfind, hsnd⟩ := hg
  exact ⟨p, List.mem_of_find?_eq_some hfind, hsnd⟩

/-- Each `_irq` event whose MTU data respects the radio contract preserves
the registry MTU range invariant. -/
lemma registry_mtu_ok_irq (st : PeripheralState) (ev : BleEvent)
    (hev : event_mtu_ok ev = true) (hok : registry_mtu_ok st.connections) :
    registry_mtu_ok (irq st ev).connections := by
  cases ev with
  | centralConnect conn_handle addr_type addr =>
      intro p hp
      rcases List.mem_append.mp hp with hmem | hmem
      · exact hok p (List.mem_filter.mp hmem).1
      · simp only [List.mem_singleton] at hmem
        subst hmem
        exact ⟨by norm_num [BleConnection.mk_initial], by norm_num [BleConnection.mk_initial]⟩
  | centralDisconnect conn_handle addr_type addr =>
      intro p hp
      exact hok p (List.mem_filter.mp hp).1
  | gattsWrite conn_handle value_handle value =>
      simp only [irq]
      split <;> exact hok
  | mtuExchanged conn_handle mtu =>
      simp only [event_mtu_ok, Bool.and_eq_true, decide_eq_true_eq] at hev
      intro p hp
      simp only [irq, registry_update_mtu, List.mem_map] at hp
      obtain ⟨q, hq, rfl⟩ := hp
      by_cases hqh : q.1 = conn_handle
      · simp only [if_pos hqh, BleConnection.update_mtu]
        exact hev
      · simpa [if_neg hqh] using hok q hq
  | connectionUpdate a b c d e =>
      intro p hp
      simp only [irq, registry_update_params, List.mem_map] at hp
      obtain ⟨q, hq, rfl⟩ := hp
      by_cases hqh : q.1 = a
      · simpa [if_pos hqh, BleConnection.update_connection_params] using hok q hq
      · simpa [if_neg hqh] using hok q hq
  | encryptionUpdate a b c d e =>
      intro p hp
      simp only [irq, registry_update_security, List.mem_map] at hp
      obtain ⟨q, hq, rfl⟩ := hp
      by_cases hqh : q.1 = a
      · simpa [if_pos hqh, BleConnection.update_security] using hok q hq
      · simpa [if_neg hqh] using hok q hq
  | unknown n => exact hok

/-- The registry MTU range invariant holds along any contract-respecting
event run. -/
lemma registry_mtu_ok_run (evs : List BleEvent) (st : PeripheralState)
    (hev : ∀ e ∈ evs, event_mtu_ok e = true)
    (hok : registry_mtu_ok st.connections) :
    registry_mtu_ok (run_events st evs).connections := by
  induction evs generalizing st with
  | nil => exact hok
  | cons e t ih =>
      exact ih (irq st e) (fun x hx => hev x (List.mem_cons_of_mem e hx))
        (registry_mtu_ok_irq st e (hev e (List.mem_cons_self e t)) hok)

/-- Under the registry MTU range invariant, one pipeline iteration never
raises for any handle and any byte input. -/
lemma process_item_no_error (conns : Registry) (conn_handle : Nat)
    (value : List Nat) (hok : registry_mtu_ok conns) :
    iteration_ok (process_item conns conn_handle value) = true := by
  cases hget : get_connection conns conn_handle with
  | none =>
      simp only [process_item, hget, iteration_ok]
      split_ifs <;> first | rfl | omega
  | some conn =>
      obtain ⟨p, hmem, hsnd⟩ := get_connection_mem hget
      have hb := hok p hmem
      rw [hsnd] at hb
      simp only [process_item, hget, iteration_ok]
      split_ifs <;> first | rfl | omega

/-- C1: every dispatched request is answered with a frame that is exactly
the 2-byte little-endian magic `0xC07C`, the echoed request id (byte 2 of
the request), the echoed opcode (byte 3), the result code, the payload
length and the payload; in particular the Ping request
`7C C0 05 01 00` produces the notification `7C C0 05 01 00 00` and the
Version request `7C C0 09 02 00` produces `7C C0 09 02 00 03 01 00 00`. -/
theorem corc_C1_response_frame_format :
    (∀ (conns : Registry) (conn_handle : Nat) (value : List Nat) (r : Response),
        process_item conns conn_handle value = Except.ok (some r) →
        encode_response r.request_id r.opcode r.result r.payload =
          [0x7C, 0xC0, value.getD 2 0, value.getD 3 0, r.result,
           r.payload.length] ++ r.payload) ∧
    process_item_notification [] 0 [0x7C, 0xC0, 0x05, 0x01, 0x00] =
      Except.ok (some [0x7C, 0xC0, 0x05, 0x01, 0x00, 0x00]) ∧
    process_item_notification [] 0 [0x7C, 0xC0, 0x09, 0x02, 0x00] =
      Except.ok (some [0x7C, 0xC0, 0x09, 0x02, 0x00, 0x03, 0x01, 0x00, 0x00]) := by
  refine ⟨?_, rfl, rfl⟩
  intro conns conn_handle value r hp
  cases hget : get_connection conns conn_handle with
  | none =>
      simp only [process_item, hget] at hp
      split_ifs at hp <;>
        simp only [Except.ok.injEq, Option.some.injEq, reduceCtorEq] at hp <;>
        subst hp <;>
        simp [encode_response, magic_bytes, CORC_PROTOCOL_MAGIC]
  | some conn =>
      simp only [process_item, hget] at hp
      split_ifs at hp <;>
        simp only [Except.ok.injEq, Option.some.injEq, reduceCtorEq] at hp <;>
        subst hp <;>
        simp [encode_response, magic_bytes, CORC_PROTOCOL_MAGIC]

/-- Witness for C1: scenario A, instantiated from the format theorem. -/
theorem corc_C1_witness :
    encode_response 0x05 0x01 RES_OK [] = [0x7C, 0xC0, 0x05, 0x01, 0x00, 0x00] := by
  have h := corc_C1_response_frame_format.1 [] 0 [0x7C, 0xC0, 0x05, 0x01, 0x00]
      ⟨0x05, 0x01, RES_OK, []⟩ (by rfl)
  exact h.trans (by decide)

/-- C2: a well-formed `GetDataMaxLen` request is answered `RES_OK` with a
1-byte payload `mtu − 3` for the most recently recorded MTU of the handle
(falling back to `20` when the handle has no record); an MTU update is
visible to subsequent lookups; after connect + `MtuExchanged(7, 185)` the
payload byte is `182`; and two connections with different in-range MTUs get
different answers to the same request. -/
theorem corc_C2_get_data_max_len :
    (∀ (conns : Registry) (conn_handle : Nat) (value : List Nat)
        (conn : BleConnection),
        5 ≤ value.length →
        value.getD 0 0 + 256 * value.getD 1 0 = CORC_PROTOCOL_MAGIC →
        value.getD 3 0 = OPCODE_GET_DATA_MAX_LEN →
        5 + value.getD 4 0 ≤ value.length →
        get_connection conns conn_handle = some conn →
        3 ≤ conn.mtu → conn.mtu ≤ 258 →
        process_item conns conn_handle value =
          Except.ok (some ⟨value.getD 2 0, OPCODE_GET_DATA_MAX_LEN, RES_OK,
            [conn.mtu - 3]⟩)) ∧
    (∀ (conns : Registry) (conn_handle : Nat) (value : List Nat),
        5 ≤ value.length →
        value.getD 0 0 + 256 * value.getD 1 0 = CORC_PROTOCOL_MAGIC →
        value.getD 3 0 = OPCODE_GET_DATA_MAX_LEN →
        5 + value.getD 4 0 ≤ value.length →
        get_connection conns conn_handle = none →
        process_item conns conn_handle value =
          Except.ok (some ⟨value.getD 2 0, OPCODE_GET_DATA_MAX_LEN, RES_OK,
            [20]⟩)) ∧
    (∀ (r : Registry) (h mtu : Nat) (conn : BleConnection),
        get_connection r h = some conn →
        get_connection (registry_update_mtu r h mtu) h =
          some (conn.update_mtu mtu)) ∧
    process_item
      (run_events (init_state 0)
        [BleEvent.centralConnect 7 0 [1, 2, 3, 4, 5, 6],
         BleEvent.mtuExchanged 7 185]).connections
      7 [0x7C, 0xC0, 0x0A, 0x03, 0x00] =
      Except.ok (some ⟨0x0A, OPCODE_GET_DATA_MAX_LEN, RES_OK, [182]⟩) ∧
    (∀ (conns : Registry) (ch1 ch2 : Nat) (value : List Nat)
        (c1 c2 : BleConnection),
        5 ≤ value.length →
        value.getD 0 0 + 256 * value.getD 1 0 = CORC_PROTOCOL_MAGIC →
        value.getD 3 0 = OPCODE_GET_DATA_MAX_LEN →
        5 + value.getD 4 0 ≤ value.length →
        get_connection conns ch1 = some c1 →
        get_connection conns ch2 = some c2 →
        3 ≤ c1.mtu → c1.mtu ≤ 258 → 3 ≤ c2.mtu → c2.mtu ≤ 258 →
        c1.mtu ≠ c2.mtu →
        process_item conns ch1 value ≠ process_item conns ch2 value) := by
  have h1 : ∀ (conns : Registry) (conn_handle : Nat) (value : List Nat)
      (conn : BleConnection),
      5 ≤ value.length →
      value.getD 0 0 + 256 * value.getD 1 0 = CORC_PROTOCOL_MAGIC →
      value.getD 3 0 = OPCODE_GET_DATA_MAX_LEN →
      5 + value.getD 4 0 ≤ value.length →
      get_connection conns conn_handle = some conn →
      3 ≤ conn.mtu → conn.mtu ≤ 258 →
      process_item conns conn_handle value =
        Except.ok (some ⟨value.getD 2 0, OPCODE_GET_DATA_MAX_LEN, RES_OK,
          [conn.mtu - 3]⟩) := by
    intro conns conn_handle value conn hlen hmagic hop hcomp hget h3 h258
    simp only [process_item, hget]
    rw [if_neg (by omega),
        if_neg (by simp only [bne_iff_ne, ne_eq, not_not]; exact hmagic),
        if_neg (by omega), hop]
    rw [if_neg (by simp [OPCODE_GET_DATA_MAX_LEN, OPCODE_PING]),
        if_neg (by simp [OPCODE_GET_DATA_MAX_LEN, OPCODE_VERSION]),
        if_pos rfl,
        if_pos (by constructor <;> [omega; omega])]
    have ht : ((conn.mtu : Int) - 3).toNat = conn.mtu - 3 := by omega
    rw [ht]
  have h2 : ∀ (conns : Registry) (conn_handle : Nat) (value : List Nat),
      5 ≤ value.length →
      value.getD 0 0 + 256 * value.getD 1 0 = CORC_PROTOCOL_MAGIC →
      value.getD 3 0 = OPCODE_GET_DATA_MAX_LEN →
      5 + value.getD 4 0 ≤ value.length →
      get_connection conns conn_handle = none →
      process_item conns conn_handle value =
        Except.ok (some ⟨value.getD 2 0, OPCODE_GET_DATA_MAX_LEN, RES_OK,
          [20]⟩) := by
    intro conns conn_handle value hlen hmagic hop hcomp hget
    simp only [process_item, hget]
    rw [if_neg (by omega),
        if_neg (by simp only [bne_iff_ne, ne_eq, not_not]; exact hmagic),
        if_neg (by omega), hop]
    rw [if_neg (by simp [OPCODE_GET_DATA_MAX_LEN, OPCODE_PING]),
        if_neg (by simp [OPCODE_GET_DATA_MAX_LEN, OPCODE_VERSION]),
        if_pos rfl,
        if_pos (by constructor <;> [norm_num; norm_num])]
    rfl
  refine ⟨h1, h2, ?_, rfl, ?_⟩
  · intro r h mtu conn hget
    rw [get_connection_registry_update_mtu, hget]
    rfl
  · intro conns ch1 ch2 value c1 c2 hlen hmagic hop hcomp hget1 hget2
      h31 h2581 h32 h2582 hne
    rw [h1 conns ch1 value c1 hlen hmagic hop hcomp hget1 h31 h2581,
        h1 conns ch2 value c2 hlen hmagic hop hcomp hget2 h32 h2582]
    simp only [ne_eq, Except.ok.injEq, Option.some.injEq, Response.mk.injEq,
      List.cons.injEq, and_true, true_and]
    omega

/-- Witness for C2: a handle with recorded MTU 185 answers `GetDataMaxLen`
with payload byte 182. -/
theorem corc_C2_witness :
    process_item [(7, BleConnection.mk_initial 7 0 [] 185)] 7
      [0x7C, 0xC0, 0x01, 0x03, 0x00] =
      Except.ok (some ⟨0x01, OPCODE_GET_DATA_MAX_LEN, RES_OK, [182]⟩) := by
  have h := corc_C2_get_data_max_len.1 [(7, BleConnection.mk_initial 7 0 [] 185)] 7
      [0x7C, 0xC0, 0x01, 0x03, 0x00] (BleConnection.mk_initial 7 0 [] 185)
      (by decide) (by decide) (by decide) (by decide) (by rfl) (by decide) (by decide)
  exact h.trans (by rfl)

/-- C3: for any state reached by IRQ events whose negotiated MTUs respect
the radio contract (the stack caps at the configured 247 and never goes
below 23), processing any queued `(handle, bytes)` item — any byte content,
handle present in the registry or not — completes without raising. -/
theorem corc_C3_pipeline_never_raises (rx_handle : Nat) (evs : List BleEvent)
    (hev : ∀ e ∈ evs, event_mtu_ok e = true)
    (conn_handle : Nat) (value : List Nat) :
    iteration_ok
      (process_item (run_events (init_state rx_handle) evs).connections
        conn_handle value) = true := by
  refine process_item_no_error _ _ _ ?_
  refine registry_mtu_ok_run evs (init_state rx_handle) hev ?_
  intro p hp
  simp [init_state] at hp

/-- Witness for C3: a `GetDataMaxLen` item processed after connect and MTU
exchange completes without raising. -/
theorem corc_C3_witness :
    iteration_ok (process_item (run_events (init_state 0)
      [BleEvent.centralConnect 1 0 [0, 1, 2, 3, 4, 5],
       BleEvent.mtuExchanged 1 100]).connections 1
      [0x7C, 0xC0, 0x02, 0x03, 0x00]) = true :=
  corc_C3_pipeline_never_raises 0
    [BleEvent.centralConnect 1 0 [0, 1, 2, 3, 4, 5],
     BleEvent.mtuExchanged 1 100] (by decide) 1 [0x7C, 0xC0, 0x02, 0x03, 0x00]

/-- C4: any input of length ≥ 5 with correct magic whose declared payload
length (byte 4) exceeds the bytes remaining after the 5-byte header is
answered with `RES_INVALID_ATTRIBUTE_LENGTH` (0x0D), echoing the parsed id
and opcode, with an empty payload; the input `7C C0 01 03 0A` yields
exactly the notification `7C C0 01 03 0D 00`. -/
theorem corc_C4_truncated_invalid_attribute_length :
    (∀ (conns : Registry) (conn_handle : Nat) (value : List Nat),
        5 ≤ value.length →
        value.getD 0 0 + 256 * value.getD 1 0 = CORC_PROTOCOL_MAGIC →
        value.length < 5 + value.getD 4 0 →
        process_item conns conn_handle value =
          Except.ok (some ⟨value.getD 2 0, value.getD 3 0,
            RES_INVALID_ATTRIBUTE_LENGTH, []⟩)) ∧
    process_item_notification [] 0 [0x7C, 0xC0, 0x01, 0x03, 0x0A] =
      Except.ok (some [0x7C, 0xC0, 0x01, 0x03, 0x0D, 0x00]) := by
  refine ⟨?_, rfl⟩
  intro conns conn_handle value hlen hmagic htrunc
  simp only [process_item]
  rw [if_neg (by omega),
      if_neg (by simp only [bne_iff_ne, ne_eq, not_not]; exact hmagic),
      if_pos htrunc]

/-- Witness for C4: scenario C, instantiated from the truncation theorem. -/
theorem corc_C4_witness :
    process_item [] 0 [0x7C, 0xC0, 0x01, 0x03, 0x0A] =
      Except.ok (some ⟨0x01, 0x03, RES_INVALID_ATTRIBUTE_LENGTH, []⟩) := by
  have h := corc_C4_truncated_invalid_attribute_length.1 [] 0
      [0x7C, 0xC0, 0x01, 0x03, 0x0A] (by decide) (by decide) (by decide)
  exact h.trans (by rfl)

/-- C5: a disconnect for handle `H` removes exactly the queued inbound
frames whose handle is `H`: the surviving queue is an order-preserving
sublist of the old one, contains no frame for `H`, and keeps every other
handle's frames with their multiplicity; with connections 1 and 2 where 1
has three queued frames and 2 has one, disconnecting 1 leaves exactly 2's
frame. -/
theorem corc_C5_disconnect_purges_queue :
    (∀ (st : PeripheralState) (conn_handle addr_type : Nat) (addr : List Nat),
        List.Sublist
          (irq st (BleEvent.centralDisconnect conn_handle addr_type addr)).cmd_queue
          st.cmd_queue ∧
        (∀ c ∈ (irq st (BleEvent.centralDisconnect conn_handle addr_type addr)).cmd_queue,
            c.1 ≠ conn_handle) ∧
        (∀ c : Nat × List Nat, c.1 ≠ conn_handle →
            ((irq st (BleEvent.centralDisconnect conn_handle addr_type addr)).cmd_queue).count c
              = st.cmd_queue.count c)) ∧
    (irq { connections := [(1, BleConnection.mk_initial 1 0 [] 23),
                           (2, BleConnection.mk_initial 2 0 [] 23)],
           cmd_queue := [(1, [0xAA]), (1, [0xBB]), (1, [0xCC]), (2, [0xDD])],
           should_advertise := false, rx_handle := 0 }
       (BleEvent.centralDisconnect 1 0 [])).cmd_queue = [(2, [0xDD])] := by
  refine ⟨?_, rfl⟩
  intro st conn_handle addr_type addr
  refine ⟨List.filter_sublist _, ?_, ?_⟩
  · intro c hc
    have := (List.mem_filter.mp hc).2
    simpa [bne_iff_ne] using this
  · intro c hc
    exact List.count_filter (by simpa [bne_iff_ne] using hc)

/-- Witness for C5: the multiplicity of another handle's frame survives a
disconnect, instantiated from the purge theorem. -/
theorem corc_C5_witness :
    ((irq { connections := [], cmd_queue := [(1, [0x61]), (2, [0x62])],
            should_advertise := false, rx_handle := 0 }
        (BleEvent.centralDisconnect 1 0 [])).cmd_queue).count (2, [0x62]) =
      ([(1, [0x61]), (2, [0x62])] : List (Nat × List Nat)).count (2, [0x62]) :=
  (corc_C5_disconnect_purges_queue.1
      { connections := [], cmd_queue := [(1, [0x61]), (2, [0x62])],
        should_advertise := false, rx_handle := 0 } 1 0 []).2.2 (2, [0x62]) (by decide)

/-- C6: a well-formed request whose opcode is none of `0x01`, `0x02`,
`0x03` is answered with `RES_UNSUPPORTED` and an empty payload, echoing the
request id and opcode, and the iteration does not raise. -/
theorem corc_C6_unsupported_opcode (conns : Registry) (conn_handle : Nat)
    (value : List Nat)
    (hlen : 5 ≤ value.length)
    (hmagic : value.getD 0 0 + 256 * value.getD 1 0 = CORC_PROTOCOL_MAGIC)
    (hcomplete : 5 + value.getD 4 0 ≤ value.length)
    (hping : value.getD 3 0 ≠ OPCODE_PING)
    (hver : value.getD 3 0 ≠ OPCODE_VERSION)
    (hmax : value.getD 3 0 ≠ OPCODE_GET_DATA_MAX_LEN) :
    process_item conns conn_handle value =
      Except.ok (some ⟨value.getD 2 0, value.getD 3 0, RES_UNSUPPORTED, []⟩) := by
  simp only [process_item]
  rw [if_neg (by omega),
      if_neg (by simp only [bne_iff_ne, ne_eq, not_not]; exact hmagic),
      if_neg (by omega), if_neg hping, if_neg hver, if_neg hmax]

/-- Witness for C6: opcode `0x7F` is answered `RES_UNSUPPORTED`. -/
theorem corc_C6_witness :
    process_item [] 0 [0x7C, 0xC0, 0x01, 0x7F, 0x00] =
      Except.ok (some ⟨0x01, 0x7F, RES_UNSUPPORTED, []⟩) := by
  have h := corc_C6_unsupported_opcode [] 0 [0x7C, 0xC0, 0x01, 0x7F, 0x00]
      (by decide) (by decide) (by decide) (by decide) (by decide) (by decide)
  exact h.trans (by rfl)

/-- C7: the registry holds at most one record per handle after any event
sequence from the initial state; adding a handle makes `get` return exactly
the fresh record (MTU 23), evicting any stale one; and an add leaves every
other handle's lookup unchanged. -/
theorem corc_C7_registry_unique_handles :
    (∀ (rx_handle : Nat) (evs : List BleEvent),
        (registry_keys (run_events (init_state rx_handle) evs).connections).Nodup) ∧
    (∀ (r : Registry) (conn_handle addr_type : Nat) (addr : List Nat),
        get_connection (add_connection r conn_handle addr_type addr) conn_handle =
          some (BleConnection.mk_initial conn_handle addr_type addr 23)) ∧
    (∀ (r : Registry) (conn_handle addr_type : Nat) (addr : List Nat) (h' : Nat),
        h' ≠ conn_handle →
        get_connection (add_connection r conn_handle addr_type addr) h' =
          get_connection r h') := by
  refine ⟨?_, ?_, ?_⟩
  · intro rx evs
    exact nodup_keys_run evs (init_state rx) (by simp [init_state, registry_keys])
  · intro r conn_handle addr_type addr
    have hnone : (r.filter (fun p => p.1 != conn_handle)).find?
        (fun p => p.1 == conn_handle) = none := by
      rw [List.find?_eq_none]
      intro p hp
      have := (List.mem_filter.mp hp).2
      simpa [bne_iff_ne] using this
    simp [get_connection, add_connection, List.find?_append, hnone]
  · intro r conn_handle addr_type addr h' hne
    simp only [get_connection, add_connection, List.find?_append,
      find_filter_other r conn_handle h' hne]
    have : ([(conn_handle, BleConnection.mk_initial conn_handle addr_type addr 23)].find?
        (fun p => p.1 == h')) = none := by
      rw [List.find?_eq_none]
      intro p hp
      simp only [List.mem_singleton] at hp
      subst hp
      simp only [beq_iff_eq]
      omega
    rw [this, Option.or_none]

/-- Witness for C7: after adding handle 1, the lookup of handle 2 is
unchanged, instantiated from the uniqueness theorem. -/
theorem corc_C7_witness :
    get_connection (add_connection [(2, BleConnection.mk_initial 2 0 [] 23)] 1 0 [9]) 2 =
      get_connection [(2, BleConnection.mk_initial 2 0 [] 23)] 2 :=
  corc_C7_registry_unique_handles.2.2 [(2, BleConnection.mk_initial 2 0 [] 23)]
    1 0 [9] 2 (by decide)

/-- C8: any input of length ≥ 5 whose first two bytes, read little-endian,
differ from the magic constant is dropped without a response, whatever the
remaining content. -/
theorem corc_C8_bad_magic_dropped (conns : Registry) (conn_handle : Nat)
    (value : List Nat) (hlen : 5 ≤ value.length)
    (hmagic : value.getD 0 0 + 256 * value.getD 1 0 ≠ CORC_PROTOCOL_MAGIC) :
    process_item conns conn_handle value = Except.ok none := by
  simp only [process_item]
  rw [if_neg (by omega), if_pos (by simpa [bne_iff_ne] using hmagic)]

/-- Witness for C8: a zero-magic frame is dropped. -/
theorem corc_C8_witness :
    process_item [] 0 [0x00, 0x00, 0x01, 0x01, 0x00] = Except.ok none :=
  corc_C8_bad_magic_dropped [] 0 [0x00, 0x00, 0x01, 0x01, 0x00] (by decide) (by decide)

/-- C9: every byte string shorter than 5 is dropped silently with no
response, and the outcome does not depend on the bytes, the handle or the
registry — nothing past the end of the input is ever read. -/
theorem corc_C9_too_short_dropped :
    (∀ (conns : Registry) (conn_handle : Nat) (value : List Nat),
        value.length < 5 → process_item conns conn_handle value = Except.ok none) ∧
    (∀ (conns conns' : Registry) (ch ch' : Nat) (value value' : List Nat),
        value.length < 5 → value'.length < 5 →
        process_item conns ch value = process_item conns' ch' value') := by
  have h1 : ∀ (conns : Registry) (conn_handle : Nat) (value : List Nat),
      value.length < 5 → process_item conns conn_handle value = Except.ok none := by
    intro conns conn_handle value h
    simp only [process_item]
    rw [if_pos h]
  exact ⟨h1, fun conns conns' ch ch' v v' h h' => by rw [h1 conns ch v h, h1 conns' ch' v' h']⟩

/-- Witness for C9: a 2-byte frame is dropped. -/
theorem corc_C9_witness :
    process_item [] 0 [0x7C, 0xC0] = Except.ok none :=
  corc_C9_too_short_dropped.1 [] 0 [0x7C, 0xC0] (by decide)

/-- C10: `send_notification` on a handle absent from the registry performs
no radio call and returns normally (warning only); on a present handle an
`OSError` from the radio notify is caught and logged; in no case does the
call propagate an exception to the caller. -/
theorem corc_C10_send_notification_safe (conns : Registry) (conn_handle : Nat)
    (radio_raises : Bool) :
    (get_connection conns conn_handle = none →
        send_notification conns conn_handle radio_raises =
          Except.ok NotifyResult.skippedUnknownHandle) ∧
    (get_connection conns conn_handle ≠ none → radio_raises = true →
        send_notification conns conn_handle radio_raises =
          Except.ok NotifyResult.radioErrorLogged) ∧
    (get_connection conns conn_handle ≠ none → radio_raises = false →
        send_notification conns conn_handle radio_raises =
          Except.ok NotifyResult.notified) ∧
    (∀ e : PyError, send_notification conns conn_handle radio_raises ≠ Except.error e) := by
  refine ⟨?_, ?_, ?_, ?_⟩
  · intro hget
    have hf : (conns.find? (fun p => p.1 == conn_handle)) = none := by
      simpa [get_connection, Option.map_eq_none'] using hget
    simp [send_notification, hf]
  · intro hget hr
    have hf : (conns.find? (fun p => p.1 == conn_handle)).isSome := by
      simp only [get_connection, ne_eq, Option.map_eq_none'] at hget
      exact Option.isSome_iff_ne_none.mpr hget
    simp [send_notification, hf, gatts_notify_radio, hr]
  · intro hget hr
    have hf : (conns.find? (fun p => p.1 == conn_handle)).isSome := by
      simp only [get_connection, ne_eq, Option.map_eq_none'] at hget
      exact Option.isSome_iff_ne_none.mpr hget
    simp [send_notification, hf, gatts_notify_radio, hr]
  · intro e
    by_cases hf : (conns.find? (fun p => p.1 == conn_handle)).isSome <;>
      cases radio_raises <;>
      simp [send_notification, hf, gatts_notify_radio]

/-- Witness for C10: notifying an unknown handle is skipped, not an error. -/
theorem corc_C10_witness :
    send_notification [] 5 true = Except.ok NotifyResult.skippedUnknownHandle :=
  (corc_C10_send_notification_safe [] 5 true).1 (by rfl)
